import Mathlib

/-!
Shallow embedding of `src/common/status_popup.cpp` (KiCad status popup
widgets): the base `STATUS_POPUP` transient window with its one-shot expiry
timer, and the `STATUS_MIN_MAX_POPUP` variant showing a current value against
a `[min, max]` range.

Modelling conventions:
* The observable widget state is a record; each member function of the C++
  classes becomes a state-transforming Lean function translated statement by
  statement from the source.
* C++ `double` values (current/min/max, HSL components) are modelled as `ℚ`;
  the source only compares and stores them.
* The wxWidgets one-shot timer `m_expireTimer` is modelled by a list of
  pending firing deadlines (absolute times); `wxTimer::StartOnce` stops the
  running timer and restarts it, so `Expire` replaces the list with a
  singleton.  Time passes in unit `tick`s; a tick at which a pending deadline
  has been reached delivers the `onExpire` callback and consumes the one-shot
  deadline.
* The owning frame's formatter `EDA_DRAW_FRAME::MessageTextFromValue(v, b)`
  is an out-of-scope collaborator and is passed in abstractly as
  `fmt : ℚ → Bool → String` (the Bool is its add-unit-label argument, which
  defaults to `true` in the single-argument call used by `SetCurrent`).
-/

/-- wxWidgets integer point (`wxPoint`). -/
structure wxPoint where
  x : Int
  y : Int
deriving DecidableEq

/-- KiCad integer vector (`VECTOR2I`). -/
structure VECTOR2I where
  x : Int
  y : Int
deriving DecidableEq

/-- Modelled from the spec: `ToWxPoint` lives in `math/vector2wx.h`, which is
not under `src/`; the spec calls the two coordinate representations
"otherwise equivalent", so the conversion is coordinatewise. -/
def ToWxPoint (v : VECTOR2I) : wxPoint :=
  ⟨v.x, v.y⟩

/-- Observable state of the base popup window (`STATUS_POPUP`):
visibility, z-order raised flag, screen position, the current time, and the
pending one-shot expiry deadlines of `m_expireTimer` (absolute times). -/
structure STATUS_POPUP where
  visible : Bool
  raised : Bool
  pos : wxPoint
  now : Nat
  pending : List Nat
deriving DecidableEq

/-- Toolkit primitive `Show(b)`. -/
def STATUS_POPUP.Show (b : Bool) (s : STATUS_POPUP) : STATUS_POPUP :=
  { s with visible := b }

/-- Toolkit primitive `Raise()`: brings the window to the foreground. -/
def STATUS_POPUP.Raise (s : STATUS_POPUP) : STATUS_POPUP :=
  { s with raised := true }

/-- Toolkit primitive `Hide()` (= `Show(false)`). -/
def STATUS_POPUP.Hide (s : STATUS_POPUP) : STATUS_POPUP :=
  STATUS_POPUP.Show false s

/-- Toolkit primitive `SetPosition(p)`. -/
def STATUS_POPUP.SetPosition (p : wxPoint) (s : STATUS_POPUP) : STATUS_POPUP :=
  { s with pos := p }

/-- `STATUS_POPUP::Popup`: `Show( true ); Raise();`. -/
def STATUS_POPUP.Popup (s : STATUS_POPUP) : STATUS_POPUP :=
  STATUS_POPUP.Raise (STATUS_POPUP.Show true s)

/-- `STATUS_POPUP::Expire( int aMsecs )`: `m_expireTimer.StartOnce( aMsecs );`.
`wxTimer::StartOnce` stops the timer if it is already running and restarts
it, so the pending-deadline list becomes the singleton `[now + aMsecs]`. -/
def STATUS_POPUP.Expire (aMsecs : Nat) (s : STATUS_POPUP) : STATUS_POPUP :=
  { s with pending := [s.now + aMsecs] }

/-- `STATUS_POPUP::PopupFor( int aMsecs )`: `Popup(); Expire( aMsecs );`. -/
def STATUS_POPUP.PopupFor (aMsecs : Nat) (s : STATUS_POPUP) : STATUS_POPUP :=
  STATUS_POPUP.Expire aMsecs (STATUS_POPUP.Popup s)

/-- `STATUS_POPUP::Move( const wxPoint& aWhere )`: `SetPosition( aWhere );`. -/
def STATUS_POPUP.Move (aWhere : wxPoint) (s : STATUS_POPUP) : STATUS_POPUP :=
  STATUS_POPUP.SetPosition aWhere s

/-- `STATUS_POPUP::Move( const VECTOR2I& aWhere )`:
`SetPosition( ToWxPoint( aWhere ) );`. -/
def STATUS_POPUP.MoveV (aWhere : VECTOR2I) (s : STATUS_POPUP) : STATUS_POPUP :=
  STATUS_POPUP.SetPosition (ToWxPoint aWhere) s

/-- `STATUS_POPUP::onExpire( wxTimerEvent& )`: `Hide();`. -/
def STATUS_POPUP.onExpire (s : STATUS_POPUP) : STATUS_POPUP :=
  STATUS_POPUP.Hide s

/-- One unit of time passing on the UI event loop.  If a pending one-shot
deadline has been reached, the timer event is delivered: the deadline is
consumed and the connected handler `onExpire` runs. -/
def tick (s : STATUS_POPUP) : STATUS_POPUP :=
  let t := s.now + 1
  if s.pending.any (fun dl => decide (dl ≤ t)) then
    STATUS_POPUP.onExpire
      { s with now := t, pending := s.pending.filter (fun dl => decide (t < dl)) }
  else
    { s with now := t }

/-- Run `n` ticks of the event loop. -/
def run : Nat → STATUS_POPUP → STATUS_POPUP
  | 0, s => s
  | n + 1, s => run n (tick s)

/-- State of a freshly constructed `STATUS_POPUP`: a `wxPopupWindow` starts
hidden, not raised, with the timer not running. -/
def STATUS_POPUP.init : STATUS_POPUP :=
  { visible := false, raised := false, pos := ⟨0, 0⟩, now := 0, pending := [] }

/-- The externally drivable operations on a base popup, plus time passing. -/
inductive Op where
  | popup
  | popupFor (d : Nat)
  | expire (d : Nat)
  | move (p : wxPoint)
  | moveV (v : VECTOR2I)
  | step

/-- Interpretation of one operation. -/
def applyOp (o : Op) (s : STATUS_POPUP) : STATUS_POPUP :=
  match o with
  | .popup => STATUS_POPUP.Popup s
  | .popupFor d => STATUS_POPUP.PopupFor d s
  | .expire d => STATUS_POPUP.Expire d s
  | .move p => STATUS_POPUP.Move p s
  | .moveV v => STATUS_POPUP.MoveV v s
  | .step => tick s

/-- Interpretation of a sequence of operations, oldest first. -/
def applyOps (ops : List Op) (s : STATUS_POPUP) : STATUS_POPUP :=
  ops.foldl (fun s o => applyOp o s) s

/-- Specification-side `show-for(duration)`, from the spec's words:
"equivalent to show-and-raise() followed by arming the expiry timer for
duration", where show-and-raise "makes the window visible and brings it to
the foreground" and expire-after "(re)arms the single-shot timer; any
previously pending expiry is replaced". -/
def showForSpec (d : Nat) (s : STATUS_POPUP) : STATUS_POPUP :=
  { { s with visible := true, raised := true } with
      pending := [s.now + d] }

/-- Specification-side `move-to(point)`, from the spec's words: "repositions
the window to the given coordinate". -/
def moveToSpec (p : wxPoint) (s : STATUS_POPUP) : STATUS_POPUP :=
  { s with pos := p }

/-- A color as far as this file observes it: either the system theme's normal
button-text foreground (`wxSYS_COLOUR_BTNTEXT`), or a color built from HSL
components.  Modelled from the spec where it concerns `COLOR4D`: the
`COLOR4D::ToHSL` / `COLOR4D::FromHSL` conversions live in `gal/color4d.cpp`,
which is not under `src/`; the spec only speaks of "a warning color whose
lightness is chosen for contrast against the current background lightness",
so an HSL-constructed color is kept symbolically as its components. -/
inductive WColor where
  | normal
  | hsl (h s l : ℚ)
deriving DecidableEq

/-- The warning color computed by `STATUS_MIN_MAX_POPUP::SetCurrent` from the
background lightness `bg_l` (the result of `bg.ToHSL`):
`red.FromHSL( 0, 1.0, bg_l < 0.5 ? 0.7 : 0.3 )`. -/
def redFor (bg_l : ℚ) : WColor :=
  WColor.hsl 0 1 (if bg_l < 1/2 then 7/10 else 3/10)

/-- Observable state of `STATUS_MIN_MAX_POPUP`: the inherited base-popup
state, the stored bounds `m_min` / `m_max`, the label texts, the in-range
icon's visibility, and the foreground colors of the two bound value labels.
A fresh `wxStaticBitmap` is shown and a fresh `wxStaticText` uses the normal
system foreground, hence the initial values in `STATUS_MIN_MAX_POPUP.init`
below. -/
structure STATUS_MIN_MAX_POPUP where
  base : STATUS_POPUP
  min : ℚ
  max : ℚ
  currentLabel : String
  currentText : String
  minText : String
  maxText : String
  iconVisible : Bool
  minColor : WColor
  maxColor : WColor
deriving DecidableEq

/-- State set up by the `STATUS_MIN_MAX_POPUP` constructor:
`m_min( 0.0 ), m_max( 0.0 )`, the current label initialised to `"current"`,
the three value texts to `wxEmptyString`, the icon created (shown), and the
label foregrounds left at the system default. -/
def STATUS_MIN_MAX_POPUP.init : STATUS_MIN_MAX_POPUP :=
  { base := STATUS_POPUP.init
    min := 0
    max := 0
    currentLabel := "current"
    currentText := ""
    minText := ""
    maxText := ""
    iconVisible := true
    minColor := WColor.normal
    maxColor := WColor.normal }

/-- `STATUS_MIN_MAX_POPUP::SetMinMax( double aMin, double aMax )`, with the
frame's formatter abstract:
`m_min = aMin; m_minText->SetLabel( MessageTextFromValue( m_min, false ) );`
`m_max = aMax; m_maxText->SetLabel( MessageTextFromValue( m_max, false ) );`. -/
def STATUS_MIN_MAX_POPUP.SetMinMax (fmt : ℚ → Bool → String) (aMin aMax : ℚ)
    (s : STATUS_MIN_MAX_POPUP) : STATUS_MIN_MAX_POPUP :=
  { s with
      min := aMin
      minText := fmt aMin false
      max := aMax
      maxText := fmt aMax false }

/-- `STATUS_MIN_MAX_POPUP::SetCurrent( double aCurrent, const wxString&
aLabel )`, with the frame's formatter abstract and the background's HSL
lightness `bg_l` (computed by the out-of-scope `bg.ToHSL`) passed in:
sets the current label and text, shows the icon iff
`aCurrent >= m_min && aCurrent <= m_max`, computes `red` from `bg_l`, and
colors the bound labels `aCurrent < m_min ? red : normal` /
`aCurrent > m_max ? red : normal`.  (`Layout`, `updateSize`, `Refresh` and
`Update` touch no state modelled here.) -/
def STATUS_MIN_MAX_POPUP.SetCurrent (fmt : ℚ → Bool → String) (aCurrent : ℚ)
    (aLabel : String) (bg_l : ℚ) (s : STATUS_MIN_MAX_POPUP) :
    STATUS_MIN_MAX_POPUP :=
  { s with
      currentLabel := aLabel
      currentText := fmt aCurrent true
      iconVisible := decide (s.min ≤ aCurrent) && decide (aCurrent ≤ s.max)
      minColor := if aCurrent < s.min then redFor bg_l else WColor.normal
      maxColor := if s.max < aCurrent then redFor bg_l else WColor.normal }

/-- The timer handler as inherited by `STATUS_MIN_MAX_POPUP`: it is the base
class's `onExpire`, touching only base-popup state. -/
def STATUS_MIN_MAX_POPUP.onExpire (s : STATUS_MIN_MAX_POPUP) :
    STATUS_MIN_MAX_POPUP :=
  { s with base := STATUS_POPUP.onExpire s.base }

/-- The draw frame a popup's parent may be; only its identity matters here. -/
structure EDA_DRAW_FRAME where
  id : Nat
deriving DecidableEq

/-- The popup's parent window as seen through the C++ runtime type system:
either an `EDA_DRAW_FRAME`-derived frame, or some other `wxWindow`. -/
inductive ParentWindow where
  | drawFrame (f : EDA_DRAW_FRAME)
  | plainWindow (id : Nat)
deriving DecidableEq

/-- `dynamic_cast<EDA_DRAW_FRAME*>( GetParent() )`: succeeds exactly when the
parent's runtime type is an `EDA_DRAW_FRAME`. -/
def dynCastToFrame : ParentWindow → Option EDA_DRAW_FRAME
  | .drawFrame f => some f
  | .plainWindow _ => none

/-- wxWidgets key-event types relevant to `onCharHook`. -/
inductive EvType where
  | wxEVT_CHAR_HOOK
  | wxEVT_CHAR
deriving DecidableEq

/-- A keyboard event: its event type and key code. -/
structure KeyEvent where
  eventType : EvType
  keyCode : Nat
deriving DecidableEq

/-- Where `onCharHook` delivers the (retyped) event: to the frame's canvas
(`frame->GetCanvas()->OnEvent`) or to the parent's generic event handler
(`GetParent()->GetEventHandler()->ProcessEvent`). -/
inductive Delivery where
  | toCanvas (f : EDA_DRAW_FRAME) (ev : KeyEvent)
  | toParentHandler (ev : KeyEvent)
deriving DecidableEq

/-- The event a delivery carries. -/
def Delivery.event : Delivery → KeyEvent
  | .toCanvas _ ev => ev
  | .toParentHandler ev => ev

/-- `STATUS_POPUP::onCharHook( wxKeyEvent& aEvent )`:
`aEvent.SetEventType( wxEVT_CHAR );` then dynamic-casts the parent; if the
cast yields a frame the event goes to that frame's canvas, otherwise to the
parent's generic event handler. -/
def STATUS_POPUP.onCharHook (parent : ParentWindow) (aEvent : KeyEvent) :
    Delivery :=
  let ev := { aEvent with eventType := EvType.wxEVT_CHAR }
  match dynCastToFrame parent with
  | some frame => Delivery.toCanvas frame ev
  | none => Delivery.toParentHandler ev

/-- C1: for every current value, min, and max held by the min/max popup,
after `SetCurrent(current, label)` the in-range icon is visible if and only
if `min ≤ current ≤ max`, both bounds inclusive. -/
theorem setCurrent_icon_iff_in_range (s : STATUS_MIN_MAX_POPUP)
    (fmt : ℚ → Bool → String) (aCurrent : ℚ) (aLabel : String) (bg_l : ℚ) :
    (STATUS_MIN_MAX_POPUP.SetCurrent fmt aCurrent aLabel bg_l s).iconVisible = true ↔
      (s.min ≤ aCurrent ∧ aCurrent ≤ s.max) := by
  simp [STATUS_MIN_MAX_POPUP.SetCurrent]

/-- C2: after `SetCurrent`, the min label is the warning color exactly when
`current < min` and the normal color otherwise, and the max label is the
warning color exactly when `current > max` and the normal color otherwise;
at a bound the label is the normal color. -/
theorem setCurrent_bound_label_colors (s : STATUS_MIN_MAX_POPUP)
    (fmt : ℚ → Bool → String) (aCurrent : ℚ) (aLabel : String) (bg_l : ℚ) :
    ((STATUS_MIN_MAX_POPUP.SetCurrent fmt aCurrent aLabel bg_l s).minColor
        = if aCurrent < s.min then redFor bg_l else WColor.normal) ∧
    ((STATUS_MIN_MAX_POPUP.SetCurrent fmt aCurrent aLabel bg_l s).minColor
        = redFor bg_l ↔ aCurrent < s.min) ∧
    ((STATUS_MIN_MAX_POPUP.SetCurrent fmt aCurrent aLabel bg_l s).maxColor
        = if s.max < aCurrent then redFor bg_l else WColor.normal) ∧
    ((STATUS_MIN_MAX_POPUP.SetCurrent fmt aCurrent aLabel bg_l s).maxColor
        = redFor bg_l ↔ s.max < aCurrent) := by
  refine ⟨rfl, ?_, rfl, ?_⟩ <;>
    · simp only [STATUS_MIN_MAX_POPUP.SetCurrent]
      split <;> simp_all [redFor]

/-- C3: the warning color in `SetCurrent` is the hue-0, saturation-1 color
whose lightness is `0.7` when the background HSL lightness is below `0.5`
and `0.3` otherwise, with the threshold exactly at background lightness
`0.5` (stated on the min label when the current value is below the min). -/
theorem setCurrent_warning_color_contrast (s : STATUS_MIN_MAX_POPUP)
    (fmt : ℚ → Bool → String) (aCurrent : ℚ) (aLabel : String) (bg_l : ℚ)
    (h : aCurrent < s.min) :
    ((STATUS_MIN_MAX_POPUP.SetCurrent fmt aCurrent aLabel bg_l s).minColor
        = WColor.hsl 0 1 (if bg_l < 1/2 then 7/10 else 3/10)) ∧
    ((STATUS_MIN_MAX_POPUP.SetCurrent fmt aCurrent aLabel bg_l s).minColor
        = WColor.hsl 0 1 (7/10) ↔ bg_l < 1/2) := by
  constructor
  · simp [STATUS_MIN_MAX_POPUP.SetCurrent, redFor, if_pos h]
  · simp only [STATUS_MIN_MAX_POPUP.SetCurrent, if_pos h, redFor]
    split <;> simp_all
    exact iff_of_false (by norm_num) (not_lt.mpr (by assumption))

/-- Witness for C3 at `current = -1 < 0 = min` on a fresh popup, with
background lightness `1/4 < 1/2`. -/
theorem setCurrent_warning_color_contrast_witness :
    ((-1 : ℚ) < STATUS_MIN_MAX_POPUP.init.min) ∧
    ((STATUS_MIN_MAX_POPUP.SetCurrent (fun _ _ => "") (-1) "distance" (1/4)
        STATUS_MIN_MAX_POPUP.init).minColor = WColor.hsl 0 1 (7/10) ↔
      (1/4 : ℚ) < 1/2) :=
  ⟨by norm_num [STATUS_MIN_MAX_POPUP.init],
   (setCurrent_warning_color_contrast STATUS_MIN_MAX_POPUP.init
      (fun _ _ => "") (-1) "distance" (1/4)
      (by norm_num [STATUS_MIN_MAX_POPUP.init])).2⟩

/-- C9: `SetMinMax(min, max)` changes only the stored bounds and their two
formatted value labels; icon visibility, the bound label colors, the current
label and text, and the base-popup state are all unchanged. -/
theorem setMinMax_frame (s : STATUS_MIN_MAX_POPUP) (fmt : ℚ → Bool → String)
    (aMin aMax : ℚ) :
    (STATUS_MIN_MAX_POPUP.SetMinMax fmt aMin aMax s).min = aMin ∧
    (STATUS_MIN_MAX_POPUP.SetMinMax fmt aMin aMax s).minText = fmt aMin false ∧
    (STATUS_MIN_MAX_POPUP.SetMinMax fmt aMin aMax s).max = aMax ∧
    (STATUS_MIN_MAX_POPUP.SetMinMax fmt aMin aMax s).maxText = fmt aMax false ∧
    (STATUS_MIN_MAX_POPUP.SetMinMax fmt aMin aMax s).iconVisible = s.iconVisible ∧
    (STATUS_MIN_MAX_POPUP.SetMinMax fmt aMin aMax s).minColor = s.minColor ∧
    (STATUS_MIN_MAX_POPUP.SetMinMax fmt aMin aMax s).maxColor = s.maxColor ∧
    (STATUS_MIN_MAX_POPUP.SetMinMax fmt aMin aMax s).currentLabel = s.currentLabel ∧
    (STATUS_MIN_MAX_POPUP.SetMinMax fmt aMin aMax s).currentText = s.currentText ∧
    (STATUS_MIN_MAX_POPUP.SetMinMax fmt aMin aMax s).base = s.base :=
  ⟨rfl, rfl, rfl, rfl, rfl, rfl, rfl, rfl, rfl, rfl⟩

/-- C10: a freshly constructed min/max popup has `min = 0` and `max = 0`, so
`SetCurrent(v, label)` before any `SetMinMax` shows the in-range icon iff
`v = 0`. -/
theorem init_setCurrent_icon_iff_zero (fmt : ℚ → Bool → String) (v : ℚ)
    (lbl : String) (bg_l : ℚ) :
    STATUS_MIN_MAX_POPUP.init.min = 0 ∧
    STATUS_MIN_MAX_POPUP.init.max = 0 ∧
    ((STATUS_MIN_MAX_POPUP.SetCurrent fmt v lbl bg_l
        STATUS_MIN_MAX_POPUP.init).iconVisible = true ↔ v = 0) := by
  refine ⟨rfl, rfl, ?_⟩
  simp only [STATUS_MIN_MAX_POPUP.SetCurrent, STATUS_MIN_MAX_POPUP.init,
    Bool.and_eq_true, decide_eq_true_eq]
  exact ⟨fun ⟨h1, h2⟩ => le_antisymm h2 h1, fun h => by simp [h]⟩

/-- C5: `PopupFor(d)` is `Popup()` followed by `Expire(d)`: the resulting
state equals the spec-side show-for and the explicit composition, with
visibility and raised set, the timer armed for `now + d`, and position and
time unchanged. -/
theorem popupFor_refines_spec (d : Nat) (s : STATUS_POPUP) :
    STATUS_POPUP.PopupFor d s = showForSpec d s ∧
    STATUS_POPUP.PopupFor d s = STATUS_POPUP.Expire d (STATUS_POPUP.Popup s) ∧
    (STATUS_POPUP.PopupFor d s).visible = true ∧
    (STATUS_POPUP.PopupFor d s).raised = true ∧
    (STATUS_POPUP.PopupFor d s).pending = [s.now + d] ∧
    (STATUS_POPUP.PopupFor d s).pos = s.pos ∧
    (STATUS_POPUP.PopupFor d s).now = s.now :=
  ⟨rfl, rfl, rfl, rfl, rfl, rfl, rfl⟩

/-- C6: the timer handler inherited by the min/max popup hides the window
and changes nothing else: position, armed-timer configuration, stored
bounds, label texts, label colors, and icon visibility are unchanged. -/
theorem onExpire_hides_only (s : STATUS_MIN_MAX_POPUP) :
    (STATUS_MIN_MAX_POPUP.onExpire s).base.visible = false ∧
    (STATUS_MIN_MAX_POPUP.onExpire s).base.pos = s.base.pos ∧
    (STATUS_MIN_MAX_POPUP.onExpire s).base.raised = s.base.raised ∧
    (STATUS_MIN_MAX_POPUP.onExpire s).base.now = s.base.now ∧
    (STATUS_MIN_MAX_POPUP.onExpire s).base.pending = s.base.pending ∧
    (STATUS_MIN_MAX_POPUP.onExpire s).min = s.min ∧
    (STATUS_MIN_MAX_POPUP.onExpire s).max = s.max ∧
    (STATUS_MIN_MAX_POPUP.onExpire s).currentLabel = s.currentLabel ∧
    (STATUS_MIN_MAX_POPUP.onExpire s).currentText = s.currentText ∧
    (STATUS_MIN_MAX_POPUP.onExpire s).minText = s.minText ∧
    (STATUS_MIN_MAX_POPUP.onExpire s).maxText = s.maxText ∧
    (STATUS_MIN_MAX_POPUP.onExpire s).iconVisible = s.iconVisible ∧
    (STATUS_MIN_MAX_POPUP.onExpire s).minColor = s.minColor ∧
    (STATUS_MIN_MAX_POPUP.onExpire s).maxColor = s.maxColor :=
  ⟨rfl, rfl, rfl, rfl, rfl, rfl, rfl, rfl, rfl, rfl, rfl, rfl, rfl, rfl⟩

/-- C7: forwarding a keyboard event always succeeds: when the parent
dynamic-casts to a draw frame the retyped event goes to the frame's canvas,
otherwise it goes to the parent's generic event handler, and in every case
the delivered event is the original one retyped to `wxEVT_CHAR`. -/
theorem onCharHook_total_dispatch :
    (∀ (f : EDA_DRAW_FRAME) (ev : KeyEvent),
        STATUS_POPUP.onCharHook (ParentWindow.drawFrame f) ev =
          Delivery.toCanvas f { ev with eventType := EvType.wxEVT_CHAR }) ∧
    (∀ (pid : Nat) (ev : KeyEvent),
        STATUS_POPUP.onCharHook (ParentWindow.plainWindow pid) ev =
          Delivery.toParentHandler { ev with eventType := EvType.wxEVT_CHAR }) ∧
    (∀ (p : ParentWindow) (ev : KeyEvent),
        (STATUS_POPUP.onCharHook p ev).event =
          { ev with eventType := EvType.wxEVT_CHAR }) :=
  ⟨fun _ _ => rfl, fun _ _ => rfl, fun p _ => by cases p <;> rfl⟩

/-- C8: the two `Move` overloads agree at every point: moving by the integer
vector equals moving by the toolkit point, both equal the spec-side move-to,
the window ends at the given position, and nothing else changes. -/
theorem move_overloads_equivalent (x y : Int) (s : STATUS_POPUP) :
    STATUS_POPUP.MoveV ⟨x, y⟩ s = STATUS_POPUP.Move ⟨x, y⟩ s ∧
    STATUS_POPUP.Move ⟨x, y⟩ s = moveToSpec ⟨x, y⟩ s ∧
    (STATUS_POPUP.Move ⟨x, y⟩ s).pos = ⟨x, y⟩ ∧
    (STATUS_POPUP.Move ⟨x, y⟩ s).visible = s.visible ∧
    (STATUS_POPUP.Move ⟨x, y⟩ s).raised = s.raised ∧
    (STATUS_POPUP.Move ⟨x, y⟩ s).now = s.now ∧
    (STATUS_POPUP.Move ⟨x, y⟩ s).pending = s.pending :=
  ⟨rfl, rfl, rfl, rfl, rfl, rfl, rfl⟩

/-- Each single operation preserves at-most-one-pending: `StartOnce` replaces
the pending deadline with exactly one, a tick can only consume deadlines, and
the other operations leave the timer alone. -/
theorem applyOp_pending_length (o : Op) (s : STATUS_POPUP)
    (h : s.pending.length ≤ 1) : (applyOp o s).pending.length ≤ 1 := by
  cases o with
  | popup => exact h
  | popupFor d => exact le_refl 1
  | expire d => exact le_refl 1
  | move p => exact h
  | moveV v => exact h
  | step =>
    simp only [applyOp, tick]
    split
    · exact le_trans (List.length_filter_le _ _) h
    · exact h

/-- At-most-one-pending is an invariant of every operation sequence. -/
theorem applyOps_pending_length (ops : List Op) (s : STATUS_POPUP)
    (h : s.pending.length ≤ 1) : (applyOps ops s).pending.length ≤ 1 := by
  induction ops generalizing s with
  | nil => exact h
  | cons o rest ih => exact ih (applyOp o s) (applyOp_pending_length o s h)

/-- While the single pending deadline lies strictly in the future, ticking
only advances the clock: visibility, the pending deadline, the raised flag
and the position are untouched. -/
theorem run_no_fire (n : Nat) : ∀ (s : STATUS_POPUP) (T : Nat),
    s.pending = [T] → s.now + n < T →
    (run n s).visible = s.visible ∧ (run n s).pending = [T] ∧
    (run n s).now = s.now + n ∧ (run n s).raised = s.raised ∧
    (run n s).pos = s.pos := by
  induction n with
  | zero => exact fun s T hp _ => ⟨rfl, hp, rfl, rfl, rfl⟩
  | succ n ih =>
    intro s T hp hn
    have ht : ¬ (T ≤ s.now + 1) := by omega
    have htick : tick s = { s with now := s.now + 1 } := by
      simp [tick, hp, ht]
    have hrec := ih { s with now := s.now + 1 } T (by simpa using hp)
      (by simpa using by omega)
    rw [show run (n + 1) s = run n (tick s) from rfl, htick]
    exact ⟨hrec.1, hrec.2.1, by rw [hrec.2.2.1]; simp; omega, hrec.2.2.2.1,
      hrec.2.2.2.2⟩

/-- Running splits into sequential segments. -/
theorem run_add (a b : Nat) (s : STATUS_POPUP) :
    run (a + b) s = run b (run a s) := by
  induction a generalizing s with
  | zero => rw [Nat.zero_add]; rfl
  | succ a ih =>
    rw [show a + 1 + b = (a + b) + 1 from by omega]
    exact ih (tick s)

/-- An armed deadline fires exactly when its time arrives: running for the
armed duration hides the popup. -/
theorem run_expire_fires (s : STATUS_POPUP) (d : Nat) (hd : 0 < d) :
    (run d (STATUS_POPUP.Expire d s)).visible = false := by
  obtain ⟨e, rfl⟩ : ∃ e, d = e + 1 := ⟨d - 1, by omega⟩
  have hrn := run_no_fire e (STATUS_POPUP.Expire (e + 1) s) (s.now + (e + 1))
    rfl (by show s.now + e < s.now + (e + 1); omega)
  rw [run_add e 1 (STATUS_POPUP.Expire (e + 1) s)]
  show (tick (run e (STATUS_POPUP.Expire (e + 1) s))).visible = false
  have hfire : (run e (STATUS_POPUP.Expire (e + 1) s)).pending.any
      (fun dl => decide (dl ≤ (run e (STATUS_POPUP.Expire (e + 1) s)).now + 1))
        = true := by
    rw [hrn.2.1, hrn.2.2.1]
    show ([s.now + (e + 1)].any fun dl => decide (dl ≤ s.now + e + 1)) = true
    simp only [List.any_cons, List.any_nil, Bool.or_false, decide_eq_true_eq]
    omega
  simp [tick, hfire, STATUS_POPUP.onExpire, STATUS_POPUP.Hide,
    STATUS_POPUP.Show]

/-- C4: re-arming the expiry timer replaces any pending expiry.  At most one
expiry is ever pending along any operation sequence from a fresh popup; after
`Expire(d)` the only pending deadline is `now + d` and nothing changes the
popup's visibility before that deadline, however many deadlines were armed
before; and the most recently armed deadline does hide the popup when it
fires. -/
theorem expire_rearm_at_most_one_pending :
    (∀ ops : List Op,
        (applyOps ops STATUS_POPUP.init).pending.length ≤ 1) ∧
    (∀ (s : STATUS_POPUP) (d n : Nat), n < d →
        (run n (STATUS_POPUP.Expire d s)).visible = s.visible ∧
        (run n (STATUS_POPUP.Expire d s)).pending = [s.now + d]) ∧
    (∀ (s : STATUS_POPUP) (d : Nat), 0 < d →
        (run d (STATUS_POPUP.Expire d s)).visible = false) := by
  refine ⟨fun ops => applyOps_pending_length ops _ (by simp [STATUS_POPUP.init]),
    ?_, fun s d hd => run_expire_fires s d hd⟩
  intro s d n hn
  have h := run_no_fire n (STATUS_POPUP.Expire d s) (s.now + d) rfl
    (by show s.now + n < s.now + d; omega)
  exact ⟨h.1, h.2.1⟩

/-- Witness for C4: a popup with an already-armed earlier deadline at time 1
is re-armed for time 3; at time 2 (past the superseded deadline) it is still
visible with only the new deadline pending, and at time 3 it is hidden.  The
invariant part is instanced on the sequence expire 5 then expire 3. -/
theorem expire_rearm_at_most_one_pending_witness :
    (run 2 (STATUS_POPUP.Expire 3 ⟨true, true, ⟨0, 0⟩, 0, [1]⟩)).visible = true ∧
    (run 2 (STATUS_POPUP.Expire 3 ⟨true, true, ⟨0, 0⟩, 0, [1]⟩)).pending = [3] ∧
    (run 3 (STATUS_POPUP.Expire 3 ⟨true, true, ⟨0, 0⟩, 0, [1]⟩)).visible = false ∧
    (applyOps [Op.expire 5, Op.expire 3] STATUS_POPUP.init).pending.length ≤ 1 :=
  ⟨(expire_rearm_at_most_one_pending.2.1 ⟨true, true, ⟨0, 0⟩, 0, [1]⟩ 3 2
      (by decide)).1,
   (expire_rearm_at_most_one_pending.2.1 ⟨true, true, ⟨0, 0⟩, 0, [1]⟩ 3 2
      (by decide)).2,
   expire_rearm_at_most_one_pending.2.2 ⟨true, true, ⟨0, 0⟩, 0, [1]⟩ 3
      (by decide),
   expire_rearm_at_most_one_pending.1 [Op.expire 5, Op.expire 3]⟩
